import Mathlib

/-!
Shallow embedding of the channel-routing and bus-arbitration subsystem of
the simar-sw repository (src/spi/common.c, src/i2c/common.c,
src/bme280/common/common.c).

Device interaction (ioctl calls, SPI messages, GPIO register writes, file
reads/writes) is modelled as an explicit event trace; process-wide mutable
globals (the active bus profile, the extender address, the mux-configured
flag, the GPIO bank cache) are modelled as explicit state threaded through
the functions. Outcomes of fallible device calls are oracle parameters.
-/

namespace Simar

/-- Pin numbers from the pins enum in src/spi/common.h. -/
def P9_14 : Nat := 50
def P9_15 : Nat := 48
def P9_16 : Nat := 51
def P9_17 : Nat := 5

/-- SPI mode 3, the fixed module-select clock mode (mod_mode in src/spi/common.c). -/
def SPI_MODE_3 : Nat := 3

/-- Module-select bits per word (mod_bits in src/spi/common.c). -/
def mod_bits : Nat := 8

/-- One observable device-level action of the C code. -/
inductive Ev where
  /-- ioctl(fd, SPI_IOC_WR_MODE, m) -/
  | wrMode (m : Nat)
  /-- ioctl(fd, SPI_IOC_WR_BITS_PER_WORD, b) -/
  | wrBits (b : Nat)
  /-- ioctl(fd, SPI_IOC_MESSAGE, tr) : one full-duplex SPI transfer of the
      given tx bytes at the given bits-per-word from the transfer struct -/
  | message (tx : List Nat) (bits : Nat)
  /-- mmio_set_low on a GPIO pin -/
  | setLow (pin : Nat)
  /-- mmio_set_high on a GPIO pin -/
  | setHigh (pin : Nat)
  /-- mmio_set_output on a GPIO pin -/
  | setOutput (pin : Nat)
  /-- bbb_mmio_get_gpio resolution call for a pin -/
  | getGpio (pin : Nat)
  /-- open of the /dev/mem physical-memory device -/
  | openDevMem
  /-- mmap of the 4 KB window of one GPIO register bank -/
  | mmapBank (bank : Nat)
  /-- read(fd, rx, len) on the SPI file descriptor -/
  | fdRead (len : Nat)
  /-- write(fd, data, len) on the SPI file descriptor -/
  | fdWrite (len : Nat)
deriving DecidableEq, Repr

/-- Whether an event is an SPI bus transfer (an SPI_IOC_MESSAGE ioctl). -/
def Ev.isMessage : Ev → Bool
  | .message _ _ => true
  | _ => false

/-- Number of SPI bus transfers in a trace. -/
def spiCount (evs : List Ev) : Nat := evs.countP Ev.isMessage

/-- Even-parity bit by repeated XOR-folding, from calculate_parity in
src/spi/common.c lines 125-133. -/
def calculate_parity (x : Nat) : Nat :=
  let y := x ^^^ (x >>> 1)
  let y := y ^^^ (y >>> 2)
  let y := y ^^^ (y >>> 4)
  let y := y ^^^ (y >>> 8)
  let y := y ^^^ (y >>> 16)
  y &&& 1

/-- Reference parity stated from the spec words: the even parity of the low
4 bits of the board address (spec section 8, property 1). -/
def parityLow4 (a : Nat) : Nat :=
  ((a >>> 0) ^^^ (a >>> 1) ^^^ (a >>> 2) ^^^ (a >>> 3)) &&& 1

/-- The control frame byte built by select_module in src/spi/common.c lines
166-176: msg = (parity << 4 | address) << 3 | module, truncated to one char. -/
def frame (address module : Nat) : Nat :=
  ((((calculate_parity address) <<< 4) ||| address) <<< 3 ||| module) % 256

/-- Module field of a frame byte (low 3 bits). -/
def moduleOf (b : Nat) : Nat := b % 8

/-- Board-address field of a frame byte (bits 3..6). -/
def addrOf (b : Nat) : Nat := (b >>> 3) % 16

/-- Parity field of a frame byte (bit 7). -/
def parityOf (b : Nat) : Nat := b >>> 7

/-- Event trace of spi_mod_comm (src/spi/common.c lines 135-164): switch to
the module-select profile when the payload profile differs, pulse the ds pin
low around a single one-message transfer, then restore the payload profile.
The trace is straight-line: it does not depend on the transfer outcome. -/
def spi_mod_comm_evs (pm pb : Nat) (tx : List Nat) : List Ev :=
  (if pm ≠ SPI_MODE_3 then [Ev.wrMode SPI_MODE_3] else []) ++
  (if pb ≠ 8 then [Ev.wrBits mod_bits] else []) ++
  [Ev.setLow P9_14, Ev.message tx mod_bits, Ev.setHigh P9_14] ++
  (if pm ≠ SPI_MODE_3 then [Ev.wrMode pm] else []) ++
  (if pb ≠ 8 then [Ev.wrBits pb] else [])

/-- Result and trace of spi_mod_comm; ok is the outcome of the transfer
ioctl (ret < 0 becomes -1, otherwise 0). -/
def spi_mod_comm (pm pb : Nat) (tx : List Nat) (ok : Bool) : List Ev × Int :=
  (spi_mod_comm_evs pm pb tx, if ok then 0 else -1)

/-- Event trace of select_module (src/spi/common.c lines 166-176): build the
frame byte and send it through spi_mod_comm. No validation is performed. -/
def select_module_evs (pm pb : Nat) (address module : Nat) : List Ev :=
  spi_mod_comm_evs pm pb [frame address module]

/-- Result and trace of select_module. -/
def select_module (pm pb : Nat) (address module : Nat) (ok : Bool) : List Ev × Int :=
  spi_mod_comm pm pb [frame address module] ok

/-- Event trace of spi_transfer (src/spi/common.c lines 104-118): one
SPI_IOC_MESSAGE transfer at the payload profile bits-per-word. -/
def spi_transfer_evs (pb : Nat) (tx : List Nat) : List Ev :=
  [Ev.message tx pb]

/-- Active electrical profile of the SPI controller. -/
structure SpiState where
  activeMode : Nat
  activeBits : Nat
deriving DecidableEq, Repr

/-- Effect of one event on the controller profile: only the two WR ioctls
change it. -/
def applySpi (s : SpiState) : Ev → SpiState
  | .wrMode m => { s with activeMode := m }
  | .wrBits b => { s with activeBits := b }
  | _ => s

/-- Controller profile after running a trace. -/
def runSpi (s : SpiState) (evs : List Ev) : SpiState := evs.foldl applySpi s

/-- Event trace of write_data (src/spi/common.c lines 182-205): select
module 1 at the address, switch to the module profile, pulse cs, write the
payload bytes, then restore the payload profile. -/
def write_data_evs (pm pb : Nat) (address : Nat) (len : Nat) : List Ev :=
  select_module_evs pm pb address 1 ++
  (if pm ≠ SPI_MODE_3 then [Ev.wrMode SPI_MODE_3] else []) ++
  (if pb ≠ 8 then [Ev.wrBits mod_bits] else []) ++
  [Ev.setHigh P9_17, Ev.setLow P9_17, Ev.setHigh P9_17, Ev.fdWrite len,
   Ev.setLow P9_17] ++
  (if pm ≠ SPI_MODE_3 then [Ev.wrMode pm] else []) ++
  (if pb ≠ 8 then [Ev.wrBits pb] else [])

/-- Event trace of read_data (src/spi/common.c lines 207-229): select module
2, one dummy one-byte transfer, select module 3, another dummy transfer,
switch to the module profile, read the payload, restore. The dummy buffer is
the one-char array initialized from the empty string, i.e. the byte 0. -/
def read_data_evs (pm pb : Nat) (address : Nat) (len : Nat) : List Ev :=
  select_module_evs pm pb address 2 ++
  spi_transfer_evs pb [0] ++
  select_module_evs pm pb address 3 ++
  spi_transfer_evs pb [0] ++
  (if pm ≠ SPI_MODE_3 then [Ev.wrMode SPI_MODE_3] else []) ++
  (if pb ≠ 8 then [Ev.wrBits mod_bits] else []) ++
  [Ev.fdRead len] ++
  (if pm ≠ SPI_MODE_3 then [Ev.wrMode pm] else []) ++
  (if pb ≠ 8 then [Ev.wrBits pb] else [])

/-- Protocol-level view of a trace: a control-frame select (a transfer
bracketed by the ds pin pulse, as spi_mod_comm emits it), a plain bus
transfer, or a payload read/write on the file descriptor. -/
inductive Proto where
  | ctrl (frameByte : Nat)
  | xfer (tx : List Nat)
  | payloadRead (len : Nat)
  | payloadWrite (len : Nat)
deriving DecidableEq, Repr

/-- Abstraction of a device trace to its protocol-level actions. Profile
switches and plain pin writes carry no protocol meaning and are dropped. -/
def protoOf : List Ev → List Proto
  | Ev.setLow p :: Ev.message tx _ :: Ev.setHigh q :: rest =>
      if p = P9_14 ∧ q = P9_14 then Proto.ctrl (tx.headD 0) :: protoOf rest
      else Proto.xfer tx :: protoOf (Ev.setHigh q :: rest)
  | Ev.message tx _ :: rest => Proto.xfer tx :: protoOf rest
  | Ev.fdRead len :: rest => Proto.payloadRead len :: protoOf rest
  | Ev.fdWrite len :: rest => Proto.payloadWrite len :: protoOf rest
  | _ :: rest => protoOf rest
  | [] => []

/-- Channel identity of one sensor, from struct identifier as used by
src/bme280/common/common.c (fields mux_id and ext_mux_id; the defining
header bme280/common/common.h also carries the file descriptor, which the
routing logic does not read). -/
structure identifier where
  mux_id : Nat
  ext_mux_id : Int
deriving DecidableEq, Repr

/-- Level and direction state of the two direct-mux pins (mux0 = P9_15,
mux1 = P9_16 in src/i2c/common.c lines 16-17). -/
structure PinsState where
  mux0Out : Bool
  mux1Out : Bool
  mux0High : Bool
  mux1High : Bool
deriving DecidableEq, Repr

/-- Effect of one event on the direct-mux pins. -/
def applyPins (s : PinsState) : Ev → PinsState
  | .setOutput p =>
      if p = P9_15 then { s with mux0Out := true }
      else if p = P9_16 then { s with mux1Out := true } else s
  | .setHigh p =>
      if p = P9_15 then { s with mux0High := true }
      else if p = P9_16 then { s with mux1High := true } else s
  | .setLow p =>
      if p = P9_15 then { s with mux0High := false }
      else if p = P9_16 then { s with mux1High := false } else s
  | _ => s

/-- Pin state after running a trace. -/
def runPins (s : PinsState) (evs : List Ev) : PinsState := evs.foldl applyPins s

/-- Event trace of direct_mux (src/i2c/common.c lines 28-38): drive mux0
from bit 0 of the id and mux1 from bit 1. -/
def direct_mux_evs (id : Nat) : List Ev :=
  [if (id >>> 0) &&& 1 = 1 then Ev.setHigh P9_15 else Ev.setLow P9_15,
   if (id >>> 1) &&& 1 = 1 then Ev.setHigh P9_16 else Ev.setLow P9_16]

/-- Event trace of direct_ext_mux (src/i2c/common.c lines 46-56): send the
control frame selecting module 2 at the stored extender address, then one
plain one-byte transfer carrying the channel id. -/
def direct_ext_mux_evs (pm pb : Nat) (ext_addr : Nat) (id : Nat) : List Ev :=
  select_module_evs pm pb ext_addr 2 ++ spi_transfer_evs pb [id]

/-- Routing prefix of bme_read (src/bme280/common/common.c lines 78-81):
always direct_mux with the identity's mux id; when ext_mux_id is
nonnegative, additionally direct_ext_mux with it. -/
def bme_read_route_evs (pm pb : Nat) (ext_addr : Nat) (id : identifier) : List Ev :=
  direct_mux_evs id.mux_id ++
  (if 0 ≤ id.ext_mux_id
   then direct_ext_mux_evs pm pb ext_addr id.ext_mux_id.toNat
   else [])

/-- Process-wide mux-configuration state of src/i2c/common.c: the
pins_configured flag (line 19). -/
structure CfgState where
  pinsConfigured : Bool
deriving DecidableEq, Repr

/-- Trace, result and new state of configure_mux (src/i2c/common.c lines
155-168). r0 and r1 are the results of the two bbb_mmio_get_gpio calls
(0 on success, a negative MMIO error code on failure). When the flag is
clear the code resolves mux0, sets mux0 to output, resolves mux1, then sets
mux0 to output again (the source repeats mux0 on line 162), and records the
flag as the logical negation of the accumulated result. -/
def configure_mux (r0 r1 : Int) (s : CfgState) : CfgState × List Ev × Int :=
  if s.pinsConfigured then (s, [], 0)
  else
    let rslt := Int.lor r0 r1
    ({ pinsConfigured := rslt = 0 },
     [Ev.getGpio P9_15, Ev.setOutput P9_15, Ev.getGpio P9_16, Ev.setOutput P9_15],
     rslt)

/-- Result and new stored address of set_ext_addr (src/i2c/common.c lines
64-69): reject 0 and anything above 15 with -1, otherwise store the address
and return 0. The argument is a uint8_t value. -/
def set_ext_addr (addr : Nat) (ext_addr : Nat) : Nat × Int :=
  if addr > 15 ∨ addr = 0 then (ext_addr, -1)
  else (addr, 0)

/-- MMIO error codes from src/spi/common.h. -/
def MMIO_SUCCESS : Int := 0
def MMIO_ERROR_ARGUMENT : Int := -1
def MMIO_ERROR_DEVMEM : Int := -2
def MMIO_ERROR_MMAP : Int := -3

/-- Result of mmio_get_gpio: the new bank cache (whether each of the four
banks is mapped), the device trace, the return code, and on success the
resolved (bank, bit offset) pair. -/
structure GpioRes where
  cache : List Bool
  evs : List Ev
  ret : Int
  resolved : Option (Nat × Nat)
deriving DecidableEq, Repr

/-- Embedding of mmio_get_gpio (src/spi/common.c lines 45-73). The pin is a
C int; bank = pin / 32 and offset = pin % 32 use C truncated division. Both
are range-checked before the bank cache is consulted; only then may the
physical-memory device be opened and the bank mapped. openOk and mmapOk are
the outcomes of those two device calls. -/
def mmio_get_gpio (pin : Int) (cache : List Bool) (openOk mmapOk : Bool) : GpioRes :=
  let base := Int.tdiv pin 32
  let number := Int.tmod pin 32
  if base < 0 ∨ base > 3 then ⟨cache, [], MMIO_ERROR_ARGUMENT, none⟩
  else if number < 0 ∨ number > 31 then ⟨cache, [], MMIO_ERROR_ARGUMENT, none⟩
  else
    let b := base.toNat
    let n := number.toNat
    if cache.getD b false then ⟨cache, [], MMIO_SUCCESS, some (b, n)⟩
    else if ¬ openOk then ⟨cache, [Ev.openDevMem], MMIO_ERROR_DEVMEM, none⟩
    else if ¬ mmapOk then
      ⟨cache, [Ev.openDevMem, Ev.mmapBank b], MMIO_ERROR_MMAP, none⟩
    else
      ⟨cache.set b true, [Ev.openDevMem, Ev.mmapBank b], MMIO_SUCCESS, some (b, n)⟩

/-- Unfolding protoOf past a mode switch. -/
@[simp] theorem protoOf_wrMode (m : Nat) (r : List Ev) :
    protoOf (Ev.wrMode m :: r) = protoOf r := rfl

/-- Unfolding protoOf past a bits-per-word switch. -/
@[simp] theorem protoOf_wrBits (b : Nat) (r : List Ev) :
    protoOf (Ev.wrBits b :: r) = protoOf r := rfl

/-- A bare bus transfer abstracts to a plain xfer action. -/
@[simp] theorem protoOf_message (tx : List Nat) (b : Nat) (r : List Ev) :
    protoOf (Ev.message tx b :: r) = Proto.xfer tx :: protoOf r := rfl

/-- A transfer bracketed by the ds-pin pulse abstracts to a control select. -/
@[simp] theorem protoOf_ctrl (tx : List Nat) (b : Nat) (r : List Ev) :
    protoOf (Ev.setLow P9_14 :: Ev.message tx b :: Ev.setHigh P9_14 :: r) =
      Proto.ctrl (tx.headD 0) :: protoOf r := rfl

/-- Unfolding protoOf past a lone pin-high write. -/
@[simp] theorem protoOf_setHigh (p : Nat) (r : List Ev) :
    protoOf (Ev.setHigh p :: r) = protoOf r := rfl

/-- A pin-low write followed by another pin-low write is not a ds bracket. -/
@[simp] theorem protoOf_setLow_setLow (p q : Nat) (r : List Ev) :
    protoOf (Ev.setLow p :: Ev.setLow q :: r) = protoOf (Ev.setLow q :: r) := rfl

/-- A pin-low write followed by a pin-high write is not a ds bracket. -/
@[simp] theorem protoOf_setLow_setHigh (p q : Nat) (r : List Ev) :
    protoOf (Ev.setLow p :: Ev.setHigh q :: r) = protoOf (Ev.setHigh q :: r) := rfl

/-- A pin-low write followed by a mode switch is not a ds bracket. -/
@[simp] theorem protoOf_setLow_wrMode (p m : Nat) (r : List Ev) :
    protoOf (Ev.setLow p :: Ev.wrMode m :: r) = protoOf (Ev.wrMode m :: r) := rfl

/-- A pin-low write followed by a bits switch is not a ds bracket. -/
@[simp] theorem protoOf_setLow_wrBits (p b : Nat) (r : List Ev) :
    protoOf (Ev.setLow p :: Ev.wrBits b :: r) = protoOf (Ev.wrBits b :: r) := rfl

/-- A trailing pin-low write carries no protocol action. -/
@[simp] theorem protoOf_setLow_nil (p : Nat) : protoOf [Ev.setLow p] = [] := rfl

/-- A payload read on the descriptor abstracts to a payload-read action. -/
@[simp] theorem protoOf_fdRead (l : Nat) (r : List Ev) :
    protoOf (Ev.fdRead l :: r) = Proto.payloadRead l :: protoOf r := rfl

/-- A payload write on the descriptor abstracts to a payload-write action. -/
@[simp] theorem protoOf_fdWrite (l : Nat) (r : List Ev) :
    protoOf (Ev.fdWrite l :: r) = Proto.payloadWrite l :: protoOf r := rfl

/-- Empty trace abstracts to no protocol actions. -/
@[simp] theorem protoOf_nil : protoOf [] = [] := rfl

/-- Every spi_mod_comm scope issues exactly one bus transfer. -/
theorem spiCount_spi_mod_comm_evs (pm pb : Nat) (tx : List Nat) :
    spiCount (spi_mod_comm_evs pm pb tx) = 1 := by
  by_cases h1 : pm = SPI_MODE_3 <;> by_cases h2 : pb = 8 <;>
    simp [spi_mod_comm_evs, spiCount, h1, h2, Ev.isMessage]

end Simar

namespace Simar

/-- C1: for board_address in 1..15 and module in 0..7 the frame byte built
by select_module is ((parity << 4 | board_address) << 3) | module with
parity the XOR-fold of the address; its top bit is the even parity of the
address's low 4 bits, its bits 3..6 are the address, and its low 3 bits are
the module. -/
theorem select_module_frame_layout (a m : Nat) (h1 : 1 ≤ a) (h2 : a ≤ 15)
    (h3 : m ≤ 7) :
    frame a m = (((calculate_parity a) <<< 4 ||| a) <<< 3) ||| m ∧
    parityOf (frame a m) = parityLow4 a ∧
    addrOf (frame a m) = a ∧
    moduleOf (frame a m) = m := by
  have key : ∀ a < 16, ∀ m < 8, 1 ≤ a →
      frame a m = (((calculate_parity a) <<< 4 ||| a) <<< 3) ||| m ∧
      parityOf (frame a m) = parityLow4 a ∧
      addrOf (frame a m) = a ∧
      moduleOf (frame a m) = m := by decide
  exact key a (by omega) m (by omega) h1

/-- Witness for C1 at board_address 11, module 6. -/
theorem select_module_frame_layout_witness :
    frame 11 6 = (((calculate_parity 11) <<< 4 ||| 11) <<< 3) ||| 6 ∧
    parityOf (frame 11 6) = parityLow4 11 ∧
    addrOf (frame 11 6) = 11 ∧
    moduleOf (frame 11 6) = 6 :=
  select_module_frame_layout 11 6 (by decide) (by decide) (by decide)

/-- C3: when the active controller profile on entry is the payload profile
recorded in the mode and bits globals, the profile after spi_mod_comm
returns equals the profile active before the call, for every payload
profile and for both outcomes of the transfer ioctl: the restoring ioctls
are issued unconditionally. -/
theorem spi_mod_comm_restores_profile (pm pb : Nat) (tx : List Nat)
    (ok : Bool) (s : SpiState) (hm : s.activeMode = pm)
    (hb : s.activeBits = pb) :
    runSpi s (spi_mod_comm pm pb tx ok).1 = s := by
  subst hm hb
  obtain ⟨am, ab⟩ := s
  by_cases h1 : am = 3 <;> by_cases h2 : ab = 8 <;>
    simp [spi_mod_comm, spi_mod_comm_evs, runSpi, applySpi, h1, h2,
      SPI_MODE_3, mod_bits]

/-- Witness for C3 at payload profile (mode 0, 16 bits) with a failing
transfer. -/
theorem spi_mod_comm_restores_profile_witness :
    runSpi ⟨0, 16⟩ (spi_mod_comm 0 16 [170] false).1 = ⟨0, 16⟩ :=
  spi_mod_comm_restores_profile 0 16 [170] false ⟨0, 16⟩ rfl rfl

/-- C5: routing to an identity with direct_mux_id 2 and extender_mux_id -1
drives exactly the two direct-mux pins, mux0 low (bit 0 of 2) and mux1 high
(bit 1 of 2), and issues zero SPI transfers, for every payload profile and
stored extender address. -/
theorem bme_route_direct_only (pm pb ext_addr : Nat) (p : PinsState) :
    bme_read_route_evs pm pb ext_addr ⟨2, -1⟩ =
      [Ev.setLow P9_15, Ev.setHigh P9_16] ∧
    spiCount (bme_read_route_evs pm pb ext_addr ⟨2, -1⟩) = 0 ∧
    runPins p (bme_read_route_evs pm pb ext_addr ⟨2, -1⟩) =
      { p with mux0High := false, mux1High := true } := by
  refine ⟨rfl, rfl, ?_⟩
  simp [bme_read_route_evs, direct_mux_evs, runPins, applyPins, P9_15, P9_16]

/-- C10: set_ext_addr is atomic on error: an address of 0 or above 15 is
rejected with -1 and the stored extender address is unchanged; an address
in 1..15 is stored and 0 is returned. -/
theorem set_ext_addr_atomic (addr cur : Nat) :
    ((addr = 0 ∨ 15 < addr) → set_ext_addr addr cur = (cur, -1)) ∧
    (1 ≤ addr → addr ≤ 15 → set_ext_addr addr cur = (addr, 0)) := by
  constructor
  · intro h
    have hc : addr > 15 ∨ addr = 0 := by omega
    simp [set_ext_addr, hc]
  · intro h1 h2
    have hc : ¬ (addr > 15 ∨ addr = 0) := by omega
    simp [set_ext_addr, hc]

/-- Witness for C10: address 0 is rejected leaving 7 stored; address 5 is
stored. -/
theorem set_ext_addr_atomic_witness :
    set_ext_addr 0 7 = (7, -1) ∧ set_ext_addr 5 7 = (5, 0) :=
  ⟨(set_ext_addr_atomic 0 7).1 (Or.inl rfl),
   (set_ext_addr_atomic 5 7).2 (by decide) (by decide)⟩

/-- C2 counterexample: select_module at board_address 0 with module 5
issues one bus transfer and returns the transfer's success code 0 instead
of failing with an invalid-argument error before any transfer. -/
theorem select_module_no_validation_cex :
    spiCount (select_module 3 8 0 5 true).1 = 1 ∧
    (select_module 3 8 0 5 true).2 = 0 := by decide

/-- C2 amended: extended-module selection itself performs no address
validation — for every board address and module it issues exactly one bus
transfer — and the rejection of address 0 and of addresses above 15 happens
at configuration time instead: set_ext_addr returns -1 without storing such
an address, so the stored extender address used for selection cannot be set
to an invalid value. -/
theorem select_module_unvalidated_guard_in_set_ext_addr (pm pb a m : Nat)
    (ok : Bool) (addr cur : Nat) (h : addr = 0 ∨ 15 < addr) :
    spiCount (select_module pm pb a m ok).1 = 1 ∧
    set_ext_addr addr cur = (cur, -1) := by
  refine ⟨spiCount_spi_mod_comm_evs pm pb [frame a m], ?_⟩
  have hc : addr > 15 ∨ addr = 0 := by omega
  simp [set_ext_addr, hc]

/-- Witness for C2's amended claim at board_address 4, module 2, rejected
configuration address 16. -/
theorem select_module_unvalidated_guard_in_set_ext_addr_witness :
    spiCount (select_module 3 8 4 2 true).1 = 1 ∧
    set_ext_addr 16 9 = (9, -1) :=
  select_module_unvalidated_guard_in_set_ext_addr 3 8 4 2 true 16 9
    (Or.inr (by decide))

/-- C4 counterexample: routing to direct_mux_id 0 / extender_mux_id 5 with
stored board address 1 and payload profile (mode 3, 8 bits) issues two SPI
transfers rather than exactly one, and its only control frame decodes to
module 2, not module 5. -/
theorem bme_route_ext_cex :
    spiCount (bme_read_route_evs 3 8 1 ⟨0, 5⟩) = 2 ∧
    protoOf (bme_read_route_evs 3 8 1 ⟨0, 5⟩) =
      [Proto.ctrl (frame 1 2), Proto.xfer [5]] ∧
    moduleOf (frame 1 2) = 2 ∧ ¬ moduleOf (frame 1 2) = 5 := by decide

/-- C4 amended: routing to direct_mux_id 0 / extender_mux_id 5 drives both
mux pins low, then issues one SPI control transfer whose frame decodes to
module 2 and the configured board address, followed by one plain one-byte
SPI transfer carrying the extender channel id 5 — two bus transfers in
total. -/
theorem bme_route_ext_amended (pm pb ext_addr : Nat) (h1 : 1 ≤ ext_addr)
    (h2 : ext_addr ≤ 15) :
    bme_read_route_evs pm pb ext_addr ⟨0, 5⟩ =
      Ev.setLow P9_15 :: Ev.setLow P9_16 ::
        direct_ext_mux_evs pm pb ext_addr 5 ∧
    protoOf (bme_read_route_evs pm pb ext_addr ⟨0, 5⟩) =
      [Proto.ctrl (frame ext_addr 2), Proto.xfer [5]] ∧
    moduleOf (frame ext_addr 2) = 2 ∧
    addrOf (frame ext_addr 2) = ext_addr ∧
    spiCount (bme_read_route_evs pm pb ext_addr ⟨0, 5⟩) = 2 := by
  have key : ∀ e < 16, 1 ≤ e →
      moduleOf (frame e 2) = 2 ∧ addrOf (frame e 2) = e := by decide
  refine ⟨rfl, ?_, (key ext_addr (by omega) h1).1,
    (key ext_addr (by omega) h1).2, ?_⟩
  · by_cases hm : pm = 3 <;> by_cases hb : pb = 8 <;>
      simp [bme_read_route_evs, direct_mux_evs, direct_ext_mux_evs,
        select_module_evs, spi_mod_comm_evs, spi_transfer_evs, hm, hb,
        SPI_MODE_3]
  · by_cases hm : pm = 3 <;> by_cases hb : pb = 8 <;>
      simp [bme_read_route_evs, direct_mux_evs, direct_ext_mux_evs,
        select_module_evs, spi_mod_comm_evs, spi_transfer_evs, hm, hb,
        SPI_MODE_3, spiCount, Ev.isMessage]

/-- Witness for C4's amended claim at board address 1, payload profile
(mode 0, 16 bits). -/
theorem bme_route_ext_amended_witness :
    bme_read_route_evs 0 16 1 ⟨0, 5⟩ =
      Ev.setLow P9_15 :: Ev.setLow P9_16 :: direct_ext_mux_evs 0 16 1 5 ∧
    protoOf (bme_read_route_evs 0 16 1 ⟨0, 5⟩) =
      [Proto.ctrl (frame 1 2), Proto.xfer [5]] ∧
    moduleOf (frame 1 2) = 2 ∧
    addrOf (frame 1 2) = 1 ∧
    spiCount (bme_read_route_evs 0 16 1 ⟨0, 5⟩) = 2 :=
  bme_route_ext_amended 0 16 1 (by decide) (by decide)

/-- C6: a payload read primes the extender with a control frame selecting
module 2, one dummy transfer, a control frame selecting module 3 and a
second dummy transfer, and only then reads the payload; a payload write
first sends a control frame selecting module 1. This holds for every
address in 1..15, payload length and payload profile. -/
theorem read_write_priming (pm pb a len : Nat) (h1 : 1 ≤ a) (h2 : a ≤ 15) :
    protoOf (read_data_evs pm pb a len) =
      [Proto.ctrl (frame a 2), Proto.xfer [0], Proto.ctrl (frame a 3),
       Proto.xfer [0], Proto.payloadRead len] ∧
    protoOf (write_data_evs pm pb a len) =
      [Proto.ctrl (frame a 1), Proto.payloadWrite len] ∧
    moduleOf (frame a 1) = 1 ∧ moduleOf (frame a 2) = 2 ∧
    moduleOf (frame a 3) = 3 := by
  have key : ∀ e < 16, 1 ≤ e →
      moduleOf (frame e 1) = 1 ∧ moduleOf (frame e 2) = 2 ∧
      moduleOf (frame e 3) = 3 := by decide
  refine ⟨?_, ?_, (key a (by omega) h1).1, (key a (by omega) h1).2.1,
    (key a (by omega) h1).2.2⟩
  · by_cases hm : pm = 3 <;> by_cases hb : pb = 8 <;>
      simp [read_data_evs, select_module_evs, spi_mod_comm_evs,
        spi_transfer_evs, hm, hb, SPI_MODE_3]
  · by_cases hm : pm = 3 <;> by_cases hb : pb = 8 <;>
      simp [write_data_evs, select_module_evs, spi_mod_comm_evs, hm, hb,
        SPI_MODE_3]

/-- Witness for C6 at address 5, length 4, payload profile (mode 0,
16 bits). -/
theorem read_write_priming_witness :
    protoOf (read_data_evs 0 16 5 4) =
      [Proto.ctrl (frame 5 2), Proto.xfer [0], Proto.ctrl (frame 5 3),
       Proto.xfer [0], Proto.payloadRead 4] ∧
    protoOf (write_data_evs 0 16 5 4) =
      [Proto.ctrl (frame 5 1), Proto.payloadWrite 4] ∧
    moduleOf (frame 5 1) = 1 ∧ moduleOf (frame 5 2) = 2 ∧
    moduleOf (frame 5 3) = 3 :=
  read_write_priming 0 16 5 4 (by decide) (by decide)

/-- C7: on the first invocation with both pin resolutions succeeding,
configure_mux resolves both mux pins but sets only mux0 to output — twice —
and never sets mux1 to output: starting from unconfigured pins, mux1's
direction is still input afterwards. This contradicts the documented intent
of configuring both multiplexing pins (the source repeats mux0 on the line
that should configure mux1). -/
theorem configure_mux_skips_mux1 :
    (configure_mux 0 0 ⟨false⟩).2.1 =
      [Ev.getGpio P9_15, Ev.setOutput P9_15, Ev.getGpio P9_16,
       Ev.setOutput P9_15] ∧
    (runPins ⟨false, false, false, false⟩
        (configure_mux 0 0 ⟨false⟩).2.1).mux0Out = true ∧
    (runPins ⟨false, false, false, false⟩
        (configure_mux 0 0 ⟨false⟩).2.1).mux1Out = false ∧
    (configure_mux 0 0 ⟨false⟩).2.2 = 0 := by decide

/-- C8: once a first invocation of configure_mux has succeeded, a second
invocation performs no device calls (its trace is empty), returns success
immediately through the process-wide configured flag, and the final pin
state after both invocations equals the pin state after the first alone. -/
theorem configure_mux_idempotent (r0 r1 r0a r1a : Int) (s : CfgState)
    (p : PinsState) (h : (configure_mux r0 r1 s).2.2 = 0) :
    configure_mux r0a r1a (configure_mux r0 r1 s).1 =
      ((configure_mux r0 r1 s).1, [], 0) ∧
    runPins p ((configure_mux r0 r1 s).2.1 ++
        (configure_mux r0a r1a (configure_mux r0 r1 s).1).2.1) =
      runPins p ((configure_mux r0 r1 s).2.1) := by
  obtain ⟨flag⟩ := s
  cases flag
  · simp only [configure_mux, Bool.false_eq_true, if_false] at h ⊢
    simp [h, runPins]
  · simp [configure_mux, runPins]

/-- Witness for C8: both resolutions succeed on the first call from the
unconfigured state; the second call is a no-op that returns 0. -/
theorem configure_mux_idempotent_witness :
    configure_mux (-1) (-2) (configure_mux 0 0 ⟨false⟩).1 =
      ((configure_mux 0 0 ⟨false⟩).1, [], 0) ∧
    runPins ⟨false, false, false, false⟩ ((configure_mux 0 0 ⟨false⟩).2.1 ++
        (configure_mux (-1) (-2) (configure_mux 0 0 ⟨false⟩).1).2.1) =
      runPins ⟨false, false, false, false⟩ ((configure_mux 0 0 ⟨false⟩).2.1) :=
  configure_mux_idempotent 0 0 (-1) (-2) ⟨false⟩
    ⟨false, false, false, false⟩ (by decide)

/-- C9: when the bank index pin / 32 falls outside 0..3 or the bit offset
pin % 32 falls outside 0..31 (C truncated division and remainder),
mmio_get_gpio returns the invalid-argument error with an empty device
trace — no /dev/mem open, no mapping — and the bank cache is unchanged,
for every starting cache and every outcome of the device calls. -/
theorem mmio_get_gpio_fail_fast (pin : Int) (cache : List Bool)
    (openOk mmapOk : Bool)
    (h : Int.tdiv pin 32 < 0 ∨ 3 < Int.tdiv pin 32 ∨
         Int.tmod pin 32 < 0 ∨ 31 < Int.tmod pin 32) :
    mmio_get_gpio pin cache openOk mmapOk =
      ⟨cache, [], MMIO_ERROR_ARGUMENT, none⟩ := by
  simp only [mmio_get_gpio]
  split_ifs with hb hn
  · rfl
  · rfl
  all_goals exfalso
  all_goals push_neg at hb hn
  all_goals omega

/-- Witness for C9 at pin 128 (bank index 4) with an untouched cache and
successful device-call oracles. -/
theorem mmio_get_gpio_fail_fast_witness :
    mmio_get_gpio 128 [false, false, false, false] true true =
      ⟨[false, false, false, false], [], MMIO_ERROR_ARGUMENT, none⟩ :=
  mmio_get_gpio_fail_fast 128 [false, false, false, false] true true
    (Or.inr (Or.inl (by decide)))

end Simar
